import Mathlib

/-!
Shallow embedding of `src/vs/workbench/contrib/surveys/browser/ces.contribution.ts`
(the CES survey scheduler). Each operation of the source is modelled as a pure
function returning the list of externally observable effects it performs, in
program order. JavaScript date arithmetic that can produce `NaN` is modelled
with `Option Int` (milliseconds since the epoch; `none` = `NaN`).
-/

namespace CES

/-- Constant `WAIT_TIME_TO_SHOW_SURVEY = 1000 * 60 * 60` (1 hour, in ms). -/
def WAIT_TIME_TO_SHOW_SURVEY : Int := 1000 * 60 * 60

/-- Constant `MAX_INSTALL_AGE = 1000 * 60 * 60 * 24` (24 hours, in ms). -/
def MAX_INSTALL_AGE : Int := 1000 * 60 * 60 * 24

/-- Constant `REMIND_LATER_DELAY = 1000 * 60 * 60 * 4` (4 hours, in ms). -/
def REMIND_LATER_DELAY : Int := 1000 * 60 * 60 * 4

/-- Persisted key `SKIP_SURVEY_KEY`. -/
def SKIP_SURVEY_KEY : String := "ces/skipSurvey"

/-- Persisted key `REMIND_LATER_DATE_KEY`. -/
def REMIND_LATER_DATE_KEY : String := "ces/remindLaterDate"

/-- Observable effects of the scheduler, in program order:
storage reads/writes (`storageService.get` / `storageService.store`),
the asynchronous `telemetryService.getTelemetryInfo()` read,
telemetry events (`telemetryService.publicLog`), URL opening
(`openerService.open`), and arming the one-shot timer
(`promptScheduler.schedule(waitMs)`). -/
inductive Effect where
  | storageRead (key : String)
  | storageWrite (key : String) (value : String)
  | readTelemetryInfo
  | telemetryLog (eventName : String) (userReaction : String)
  | openUrl (url : String)
  | scheduleTimer (waitMs : Int)
  deriving DecidableEq, Repr

/-- Whether an effect is a telemetry event. -/
def Effect.isTelemetry : Effect → Bool
  | .telemetryLog _ _ => true
  | _ => false

/-- Whether an effect is a persisted write. -/
def Effect.isWrite : Effect → Bool
  | .storageWrite _ _ => true
  | _ => false

/-- Whether an effect is a persisted write to the given key. -/
def Effect.writesKey (e : Effect) (k : String) : Bool :=
  match e with
  | .storageWrite k2 _ => k2 == k
  | _ => false

/-- The waits of all timers armed in a trace, in order. -/
def timersOf (l : List Effect) : List Int :=
  l.filterMap fun e =>
    match e with
    | .scheduleTimer w => some w
    | _ => none

/-- JavaScript falsiness of the awaited boolean treatment
`await this.tasExperimentService?.getTreatment<boolean>('CESSurvey')`:
`undefined` (service absent or no treatment) and `false` are falsy. -/
def jsFalsyBool : Option Bool → Bool
  | some true => false
  | _ => true

/-- JavaScript falsiness of `productService.cesSurveyUrl`:
`undefined` or the empty string. -/
def jsFalsyStr : Option String → Bool
  | none => true
  | some s => s == ""

/-- Characters left unescaped by JavaScript `encodeURIComponent`:
alphanumerics and `- _ . ! ~ * ' ( )`. -/
def isUnescapedChar (c : Char) : Bool :=
  c.isAlpha || c.isDigit || c == '-' || c == '_' || c == '.' || c == '!' ||
    c == '~' || c == '*' || c.toNat == 39 || c == '(' || c == ')'

/-- Uppercase hexadecimal digit for `n < 16`. -/
def hexDigit (n : Nat) : Char :=
  if n < 10 then Char.ofNat (48 + n) else Char.ofNat (55 + n)

/-- UTF-8 bytes of a character (as used by `encodeURIComponent`). -/
def utf8Bytes (c : Char) : List Nat :=
  let n := c.toNat
  if n < 128 then [n]
  else if n < 2048 then [192 + n / 64, 128 + n % 64]
  else if n < 65536 then [224 + n / 4096, 128 + (n / 64) % 64, 128 + n % 64]
  else [240 + n / 262144, 128 + (n / 4096) % 64, 128 + (n / 64) % 64, 128 + n % 64]

/-- Percent-encoding of one byte, `%XX` with uppercase hex. -/
def percentByte (b : Nat) : String :=
  String.mk ['%', hexDigit (b / 16), hexDigit (b % 16)]

/-- Encoding of one character under `encodeURIComponent`. -/
def encodeChar (c : Char) : String :=
  if isUnescapedChar c then String.mk [c]
  else String.join ((utf8Bytes c).map percentByte)

/-- JavaScript `encodeURIComponent`. -/
def encodeURIComponent (s : String) : String :=
  String.join (s.data.map encodeChar)

/-- Effect of `_skipSurvey()`: persist SkipFlag := current product version. -/
def _skipSurvey (version : String) : List Effect :=
  [Effect.storageWrite SKIP_SURVEY_KEY version]

/-- Environment of one `_prepareSurvey()` invocation: the awaited
`'CESSurvey'` treatment, the stored `ces/remindLaterDate` value (empty
string = absent), the parse `new Date(remindLaterDate).getTime()` of that
value (`none` = `NaN`), the parse of `info.firstSessionDate`, and `Date.now()`. -/
structure PrepareEnv where
  isCandidate : Option Bool
  remindLaterDate : String
  remindInstant : Option Int
  firstSessionInstant : Option Int
  now : Int
  deriving Repr

/-- Effect trace of `_prepareSurvey()`, translated line by line from the
source: skip when the treatment is falsy; otherwise read the remind-later
date; if non-empty compute `timeToRemind = remindInstant + REMIND_LATER_DELAY
- now` and wait that long when positive (a `NaN` parse leaves the wait 0);
otherwise read the telemetry info, skip unless
`!isNaN(timeFromInstall) && timeFromInstall < MAX_INSTALL_AGE`, and wait
`WAIT_TIME_TO_SHOW_SURVEY - timeFromInstall` when the install is younger
than `WAIT_TIME_TO_SHOW_SURVEY`; finally `schedule(waitTimeToShowSurvey)`. -/
def _prepareSurvey (env : PrepareEnv) (version : String) : List Effect :=
  if jsFalsyBool env.isCandidate then
    _skipSurvey version
  else
    Effect.storageRead REMIND_LATER_DATE_KEY ::
    (if env.remindLaterDate != "" then
      let timeToRemind : Option Int :=
        env.remindInstant.map fun t => t + REMIND_LATER_DELAY - env.now
      let waitTimeToShowSurvey : Int :=
        match timeToRemind with
        | some t => if t > 0 then t else 0
        | none => 0
      [Effect.scheduleTimer waitTimeToShowSurvey]
    else
      Effect.readTelemetryInfo ::
      (let timeFromInstall : Option Int :=
        env.firstSessionInstant.map fun t => env.now - t
      let isNewInstall : Bool :=
        match timeFromInstall with
        | some d => d < MAX_INSTALL_AGE
        | none => false
      if !isNewInstall then
        _skipSurvey version
      else
        let waitTimeToShowSurvey : Int :=
          match timeFromInstall with
          | some d =>
            if d < WAIT_TIME_TO_SHOW_SURVEY then WAIT_TIME_TO_SHOW_SURVEY - d
            else 0
          | none => 0
        [Effect.scheduleTimer waitTimeToShowSurvey]))

/-- Effect trace of the `CESContribution` constructor: return at once when
`productService.cesSurveyUrl` is falsy; otherwise read the SkipFlag and
return when it is non-empty; otherwise run `_prepareSurvey()`. -/
def constructorEffects (cesSurveyUrl : Option String) (skipSurveyStored : String)
    (env : PrepareEnv) (version : String) : List Effect :=
  if jsFalsyStr cesSurveyUrl then []
  else
    Effect.storageRead SKIP_SURVEY_KEY ::
    (if skipSurveyStored != "" then [] else _prepareSurvey env version)

/-- Whether the module-level guard `if (language === 'en')` registers the
`CESContribution`. -/
def cesRegistered (language : String) : Bool :=
  language == "en"

/-- Effects at workbench startup: the contribution is constructed only when
registered, i.e. only when the UI language is exactly `en`. -/
def workbenchEffects (language : String) (cesSurveyUrl : Option String)
    (skipSurveyStored : String) (env : PrepareEnv) (version : String) : List Effect :=
  if cesRegistered language then
    constructorEffects cesSurveyUrl skipSurveyStored env version
  else []

/-- Effect trace of the primary (Accept / "Give Feedback") choice `run`:
telemetry tagged `neverShowAgain`, resolve telemetry info, open the survey URL
built by the template literal of the source — which ends with one extra literal
closing brace after the encoded machine id — then `_skipSurvey()`. -/
def acceptRun (cesSurveyUrl version platformStr machineId : String) : List Effect :=
  [Effect.telemetryLog "cesSurvey:popup" "neverShowAgain",
   Effect.readTelemetryInfo,
   Effect.openUrl (cesSurveyUrl ++ "?o=" ++ encodeURIComponent platformStr
     ++ "&v=" ++ encodeURIComponent version
     ++ "&m=" ++ encodeURIComponent machineId ++ "\x7d")]
  ++ _skipSurvey version

/-- Modelled from the spec (section 6): the survey URL format
`?o=<platform>&v=<version>&m=<machineId>`, each value percent-encoded,
with nothing else appended. Stated for comparison with `acceptRun`. -/
def specSurveyUrl (cesSurveyUrl version platformStr machineId : String) : String :=
  cesSurveyUrl ++ "?o=" ++ encodeURIComponent platformStr
    ++ "&v=" ++ encodeURIComponent version
    ++ "&m=" ++ encodeURIComponent machineId

/-- Effect trace of the "Remind Me later" choice `run`: telemetry tagged
`remindLater`, overwrite `ces/remindLaterDate` with the current instant
(`new Date().toUTCString()`), then re-run `_prepareSurvey()`. -/
def remindLaterRun (nowUTCString : String) (env : PrepareEnv) (version : String) :
    List Effect :=
  Effect.telemetryLog "cesSurvey:popup" "remindLater" ::
  Effect.storageWrite REMIND_LATER_DATE_KEY nowUTCString ::
  _prepareSurvey env version

/-- Concrete environment: eligible, no remind-later date, fresh install
(`firstSessionDate = now = 0`). -/
def envFresh : PrepareEnv :=
  { isCandidate := some true, remindLaterDate := "", remindInstant := none,
    firstSessionInstant := some 0, now := 0 }

/-- Concrete environment: eligible, remind-later date parsed to the epoch,
now = 5 hours later. -/
def envRemind5h : PrepareEnv :=
  { isCandidate := some true, remindLaterDate := "Thu, 01 Jan 1970 00:00:00 GMT",
    remindInstant := some 0, firstSessionInstant := none, now := 18000000 }

/-- Concrete environment: eligible, remind-later date parsed to the epoch,
now = exactly 4 hours later. -/
def envRemind4h : PrepareEnv :=
  { isCandidate := some true, remindLaterDate := "Thu, 01 Jan 1970 00:00:00 GMT",
    remindInstant := some 0, firstSessionInstant := none, now := 14400000 }

/-- Concrete environment: eligible, stored remind-later date that does not
parse (`NaN` instant). -/
def envRemindNaN : PrepareEnv :=
  { isCandidate := some true, remindLaterDate := "garbage",
    remindInstant := none, firstSessionInstant := none, now := 0 }

/-- Concrete environment: treatment is `false`. -/
def envIneligible : PrepareEnv :=
  { isCandidate := some false, remindLaterDate := "", remindInstant := none,
    firstSessionInstant := none, now := 0 }

/-- Helper: `_prepareSurvey` emits no telemetry events. -/
theorem prepareSurvey_no_telemetry (env : PrepareEnv) (version : String) :
    (_prepareSurvey env version).filter Effect.isTelemetry = [] := by
  obtain ⟨c, r, ri, fi, n⟩ := env
  rcases ri with _ | t <;> rcases fi with _ | s <;>
    simp only [_prepareSurvey, _skipSurvey] <;>
    split_ifs <;> rfl

/-- Helper: `_prepareSurvey` never writes `ces/remindLaterDate`. -/
theorem prepareSurvey_no_remind_write (env : PrepareEnv) (version : String) :
    (_prepareSurvey env version).filter (fun e => e.writesKey REMIND_LATER_DATE_KEY)
      = [] := by
  obtain ⟨c, r, ri, fi, n⟩ := env
  rcases ri with _ | t <;> rcases fi with _ | s <;>
    simp only [_prepareSurvey, _skipSurvey] <;>
    split_ifs <;> rfl

/-- C1: the claim says the URL passed to the opener is the survey URL followed
by exactly `?o=<platform>&v=<version>&m=<machineId>` with nothing else
appended. The code appends one extra literal closing brace after the encoded
machine id (a template-literal typo), shown here at a concrete input; the
SkipFlag write with the current product version does follow as claimed. -/
theorem C1_accept_url_stray_brace :
    acceptRun "https://aka.ms/ces" "1.55.0" "linux" "m1" =
      [Effect.telemetryLog "cesSurvey:popup" "neverShowAgain",
       Effect.readTelemetryInfo,
       Effect.openUrl (specSurveyUrl "https://aka.ms/ces" "1.55.0" "linux" "m1" ++ "\x7d"),
       Effect.storageWrite SKIP_SURVEY_KEY "1.55.0"] ∧
    specSurveyUrl "https://aka.ms/ces" "1.55.0" "linux" "m1" =
      "https://aka.ms/ces?o=linux&v=1.55.0&m=m1" := by
  exact ⟨rfl, rfl⟩

/-- C4 counterexample: at a concrete input, the only telemetry event the
Accept choice emits is tagged `neverShowAgain`; no event tagged `accept`
occurs in its trace. -/
theorem C4_counterexample :
    (acceptRun "https://aka.ms/ces" "1.55.0" "linux" "m1").filter Effect.isTelemetry =
      [Effect.telemetryLog "cesSurvey:popup" "neverShowAgain"] ∧
    Effect.telemetryLog "cesSurvey:popup" "accept" ∉
      acceptRun "https://aka.ms/ces" "1.55.0" "linux" "m1" := by
  exact ⟨rfl, by decide⟩

/-- C4 (amended): the telemetry event emitted for the Accept (primary) choice
carries the userReaction tag `neverShowAgain` — the same tag as the
"Don't Show Again" choice — not `accept`. -/
theorem C4_amended_telemetry (cesSurveyUrl version platformStr machineId : String) :
    (acceptRun cesSurveyUrl version platformStr machineId).filter Effect.isTelemetry =
      [Effect.telemetryLog "cesSurvey:popup" "neverShowAgain"] := rfl

/-- C5: when the `'CESSurvey'` treatment is false or unavailable,
`_prepareSurvey` performs exactly one persisted write — SkipFlag := current
product version — writes no other key, and arms no timer (its whole trace is
that single write). -/
theorem C5_ineligible_skip (env : PrepareEnv) (version : String)
    (h : jsFalsyBool env.isCandidate = true) :
    _prepareSurvey env version = [Effect.storageWrite SKIP_SURVEY_KEY version] ∧
    (_prepareSurvey env version).filter Effect.isWrite =
      [Effect.storageWrite SKIP_SURVEY_KEY version] ∧
    timersOf (_prepareSurvey env version) = [] := by
  simp [_prepareSurvey, h, _skipSurvey, timersOf, Effect.isWrite]

/-- Witness for C5 at the concrete ineligible environment. -/
theorem C5_witness :
    _prepareSurvey envIneligible "1.55.0" =
      [Effect.storageWrite SKIP_SURVEY_KEY "1.55.0"] ∧
    (_prepareSurvey envIneligible "1.55.0").filter Effect.isWrite =
      [Effect.storageWrite SKIP_SURVEY_KEY "1.55.0"] ∧
    timersOf (_prepareSurvey envIneligible "1.55.0") = [] :=
  C5_ineligible_skip envIneligible "1.55.0" rfl

/-- C6: when `productService.cesSurveyUrl` is absent or empty, the constructor
produces no effects at all: no timer armed, no persisted key read or written. -/
theorem C6_no_url_inert (cesSurveyUrl : Option String) (skipSurveyStored : String)
    (env : PrepareEnv) (version : String) (h : jsFalsyStr cesSurveyUrl = true) :
    constructorEffects cesSurveyUrl skipSurveyStored env version = [] := by
  simp [constructorEffects, h]

/-- Witness for C6 at the empty survey URL. -/
theorem C6_witness :
    constructorEffects (some "") "" envFresh "1.55.0" = [] :=
  C6_no_url_inert (some "") "" envFresh "1.55.0" rfl

/-- C9: with a stored remind-later date that does not parse (`NaN` instant),
an eligible `_prepareSurvey` run reads the key and arms the timer with wait 0;
it writes nothing (no SkipFlag) and does not treat the install as ineligible. -/
theorem C9_unparseable_remind (env : PrepareEnv) (version : String)
    (hc : env.isCandidate = some true) (hr : env.remindLaterDate ≠ "")
    (hp : env.remindInstant = none) :
    _prepareSurvey env version =
      [Effect.storageRead REMIND_LATER_DATE_KEY, Effect.scheduleTimer 0] := by
  simp [_prepareSurvey, hc, hp, jsFalsyBool, bne_iff_ne, hr]

/-- Witness for C9 at the concrete unparseable-date environment. -/
theorem C9_witness :
    _prepareSurvey envRemindNaN "1.55.0" =
      [Effect.storageRead REMIND_LATER_DATE_KEY, Effect.scheduleTimer 0] :=
  C9_unparseable_remind envRemindNaN "1.55.0" rfl (by decide) rfl

/-- C10: for every UI language other than exactly `en`, the contribution is
not registered and workbench startup produces no effects: no timer, no
persisted read or write, hence no prompt. -/
theorem C10_language_guard (language : String) (cesSurveyUrl : Option String)
    (skipSurveyStored : String) (env : PrepareEnv) (version : String)
    (h : language ≠ "en") :
    cesRegistered language = false ∧
    workbenchEffects language cesSurveyUrl skipSurveyStored env version = [] := by
  have hreg : cesRegistered language = false := by
    simp [cesRegistered, h]
  exact ⟨hreg, by simp [workbenchEffects, hreg]⟩

/-- Witness for C10 at language `de`. -/
theorem C10_witness :
    cesRegistered "de" = false ∧
    workbenchEffects "de" (some "https://aka.ms/ces") "" envFresh "1.55.0" = [] :=
  C10_language_guard "de" (some "https://aka.ms/ces") "" envFresh "1.55.0" (by decide)

/-- C2: with no stored remind-later date and a true `'CESSurvey'` treatment:
a `NaN` install duration or one of at least `MAX_INSTALL_AGE` persists the
SkipFlag and arms no timer; a duration below `WAIT_TIME_TO_SHOW_SURVEY` arms
the timer with wait `WAIT_TIME_TO_SHOW_SURVEY - duration` (duration 0 gives
exactly one hour); any other duration below `MAX_INSTALL_AGE` arms it with
wait 0. -/
theorem C2_install_age_gating (env : PrepareEnv) (version : String)
    (hc : env.isCandidate = some true) (hr : env.remindLaterDate = "") :
    (env.firstSessionInstant = none →
        timersOf (_prepareSurvey env version) = [] ∧
        (_prepareSurvey env version).filter Effect.isWrite =
          [Effect.storageWrite SKIP_SURVEY_KEY version]) ∧
    (∀ t : Int, env.firstSessionInstant = some t →
        (MAX_INSTALL_AGE ≤ env.now - t →
            timersOf (_prepareSurvey env version) = [] ∧
            (_prepareSurvey env version).filter Effect.isWrite =
              [Effect.storageWrite SKIP_SURVEY_KEY version]) ∧
        (env.now - t < MAX_INSTALL_AGE →
            (env.now - t < WAIT_TIME_TO_SHOW_SURVEY →
                timersOf (_prepareSurvey env version) =
                  [WAIT_TIME_TO_SHOW_SURVEY - (env.now - t)]) ∧
            (WAIT_TIME_TO_SHOW_SURVEY ≤ env.now - t →
                timersOf (_prepareSurvey env version) = [0]))) := by
  constructor
  · intro hfi
    simp [_prepareSurvey, hc, hr, hfi, jsFalsyBool, _skipSurvey, timersOf,
      Effect.isWrite]
  · intro t hfi
    constructor
    · intro hold
      simp [_prepareSurvey, hc, hr, hfi, jsFalsyBool, _skipSurvey, timersOf,
        Effect.isWrite, not_lt.mpr hold]
    · intro hnew
      constructor
      · intro hlt
        simp [_prepareSurvey, hc, hr, hfi, jsFalsyBool, timersOf, hnew, hlt]
      · intro hge
        simp [_prepareSurvey, hc, hr, hfi, jsFalsyBool, timersOf, hnew,
          not_lt.mpr hge]

/-- Witness for C2 at a fresh install (duration 0): the armed wait is
`WAIT_TIME_TO_SHOW_SURVEY - 0`, which is exactly one hour. -/
theorem C2_witness :
    timersOf (_prepareSurvey envFresh "1.55.0") =
      [WAIT_TIME_TO_SHOW_SURVEY - (envFresh.now - 0)] ∧
    WAIT_TIME_TO_SHOW_SURVEY - (envFresh.now - 0) = 3600000 :=
  ⟨(((C2_install_age_gating envFresh "1.55.0" rfl rfl).2 0 rfl).2
      (by decide)).1 (by decide),
   by decide⟩

/-- C3: with a stored, parseable remind-later date and a true treatment, the
timer is armed with wait `remindInstant + REMIND_LATER_DELAY - now` when that
is positive, and with wait 0 when it is not. -/
theorem C3_remind_later_gating (env : PrepareEnv) (version : String) (t : Int)
    (hc : env.isCandidate = some true) (hr : env.remindLaterDate ≠ "")
    (hp : env.remindInstant = some t) :
    (0 < t + REMIND_LATER_DELAY - env.now →
        timersOf (_prepareSurvey env version) =
          [t + REMIND_LATER_DELAY - env.now]) ∧
    (t + REMIND_LATER_DELAY - env.now ≤ 0 →
        timersOf (_prepareSurvey env version) = [0]) := by
  constructor
  · intro hpos
    simp [_prepareSurvey, hc, hp, jsFalsyBool, bne_iff_ne, hr, timersOf, hpos]
  · intro hnonpos
    simp [_prepareSurvey, hc, hp, jsFalsyBool, bne_iff_ne, hr, timersOf,
      not_lt.mpr hnonpos]

/-- Witness for C3: remind-later instant 5 hours before now, and exactly
4 hours before now, both arm the timer with wait 0. -/
theorem C3_witness :
    timersOf (_prepareSurvey envRemind5h "1.55.0") = [0] ∧
    timersOf (_prepareSurvey envRemind4h "1.55.0") = [0] :=
  ⟨(C3_remind_later_gating envRemind5h "1.55.0" 0 rfl (by decide) rfl).2 (by decide),
   (C3_remind_later_gating envRemind4h "1.55.0" 0 rfl (by decide) rfl).2 (by decide)⟩

/-- C7: the "Remind Me later" choice emits exactly one telemetry event,
tagged `remindLater`; its only write of `ces/remindLaterDate` stores the
current instant; and everything after those two effects is exactly one run
of `_prepareSurvey`. -/
theorem C7_remind_later_choice (nowUTCString : String) (env : PrepareEnv)
    (version : String) :
    (remindLaterRun nowUTCString env version).filter Effect.isTelemetry =
      [Effect.telemetryLog "cesSurvey:popup" "remindLater"] ∧
    (remindLaterRun nowUTCString env version).filter
        (fun e => e.writesKey REMIND_LATER_DATE_KEY) =
      [Effect.storageWrite REMIND_LATER_DATE_KEY nowUTCString] ∧
    (remindLaterRun nowUTCString env version).drop 2 =
      _prepareSurvey env version := by
  refine ⟨?_, ?_, rfl⟩
  · simp [remindLaterRun, Effect.isTelemetry,
      prepareSurvey_no_telemetry env version]
  · simp only [remindLaterRun, List.filter_cons]
    rw [prepareSurvey_no_remind_write env version]
    simp [Effect.writesKey]

/-- C8: whenever a non-empty remind-later date is stored, `_prepareSurvey`
never reads the telemetry info (the install-age path is never taken), and on
the eligible path it writes nothing — no old-install skip — and the armed
wait is computed solely from the remind-later instant. -/
theorem C8_remind_path_invariant (env : PrepareEnv) (version : String)
    (hr : env.remindLaterDate ≠ "") :
    Effect.readTelemetryInfo ∉ _prepareSurvey env version ∧
    (env.isCandidate = some true →
        (_prepareSurvey env version).filter Effect.isWrite = [] ∧
        timersOf (_prepareSurvey env version) =
          [match env.remindInstant with
           | some t =>
             if t + REMIND_LATER_DELAY - env.now > 0
             then t + REMIND_LATER_DELAY - env.now else 0
           | none => 0]) := by
  constructor
  · rcases hcand : env.isCandidate with _ | b
    · simp [_prepareSurvey, hcand, jsFalsyBool, _skipSurvey]
    · rcases b
      · simp [_prepareSurvey, hcand, jsFalsyBool, _skipSurvey]
      · rcases hri : env.remindInstant with _ | t <;>
          simp [_prepareSurvey, hcand, hri, jsFalsyBool, bne_iff_ne, hr]
  · intro hc
    rcases hri : env.remindInstant with _ | t <;>
      simp [_prepareSurvey, hc, hri, jsFalsyBool, bne_iff_ne, hr, timersOf,
        Effect.isWrite]

/-- Witness for C8 at the concrete 5-hours-late remind environment: no
telemetry-info read, no write, and the armed wait is 0 as the remind-later
formula dictates. -/
theorem C8_witness :
    Effect.readTelemetryInfo ∉ _prepareSurvey envRemind5h "1.55.0" ∧
    (_prepareSurvey envRemind5h "1.55.0").filter Effect.isWrite = [] ∧
    timersOf (_prepareSurvey envRemind5h "1.55.0") = [0] := by
  have h := C8_remind_path_invariant envRemind5h "1.55.0" (by decide)
  exact ⟨h.1, (h.2 rfl).1, (h.2 rfl).2⟩

end CES
